import Mathlib

/-!
Verification of the multimodal native-addon binding layer
(`src/llama/addon/globals/addonMultimodal.cpp`).

The binding marshals host values into calls against an external
multimodal library (`mtmd_*`, `llama_*`).  We embed the binding's own
logic shallowly:

* Native bitmap handles live in an explicit `Heap` (address → payload),
  so that deep-copy / aliasing properties of `MultiBitmaps::AddBitmap`
  are expressible.  `mtmd_bitmap_init` copies the pixel data it is
  given; we model the payload by value and allocation at a fresh
  address.
* The external library is a black box: each entry point is parameterised
  by an `MtmdEnv` oracle supplying the status codes and outputs of the
  single `mtmd_tokenize` / `mtmd_helper_eval_chunks` call the entry
  point makes.  Every external call is also recorded in a trace
  (`ExtCall`), which lets us state which arguments the binding passes
  and whether each `mtmd_input_chunks_init` acquisition is matched by a
  `mtmd_input_chunks_free` release.
* NAPI exceptions become `Except AddonError` / an explicit error
  constructor; the error payload strings of the C++ are abbreviated to
  constructor names.
-/

/-- Payload of one native `mtmd_bitmap`: dimensions, pixel bytes
(modelled as the byte at each offset, matching the C view of a raw
pointer read for a caller-chosen length), and the optional id string. -/
structure BitmapData where
  nx : Nat
  ny : Nat
  pix : Nat → UInt8
  id : Option String

/-- Store of live native bitmap handles.  `mem a` is the payload at
address `a` (`none` = not allocated / freed); `next` is the next fresh
address, so every live address is below `next`. -/
structure Heap where
  mem : Nat → Option BitmapData
  next : Nat

/-- Allocate a new native bitmap (`mtmd_bitmap_init`): the payload is a
copy of the argument, placed at a fresh address. -/
def Heap.alloc (h : Heap) (d : BitmapData) : Nat × Heap :=
  (h.next,
   { mem := fun x => if x = h.next then some d else h.mem x,
     next := h.next + 1 })

/-- Free a native bitmap (`mtmd_bitmap_free`, reached through the
`mtmd::bitmap` wrapper destructor / `unique_ptr::reset`). -/
def Heap.free (h : Heap) (a : Nat) : Heap :=
  { h with mem := fun x => if x = a then none else h.mem x }

/-- The `MultiBitmap` NAPI wrapper: `bitmap_wrapper.ptr`, either bound
to a native handle address or null. -/
structure MultiBitmap where
  ptr : Option Nat

/-- Result of `MultiBitmap::GetDimensions`. -/
structure Dimensions where
  width : Nat
  height : Nat
deriving Repr, DecidableEq

/-- Error kinds thrown by the binding.  Each constructor stands for one
distinct C++ error message; `disposedBitmap` is the shared
"Bitmap has been disposed or was not initialized" error of all four
bitmap accessors. -/
inductive AddonError where
  | badArgs           -- TypeError: wrong argument count or types
  | disposedBitmap    -- Error: bitmap disposed or not initialized
  | invalidBitmap     -- TypeError: invalid or uninitialized MultiBitmap argument
  | copyFailed        -- Error: mtmd_bitmap_init returned null in AddBitmap
  | ctxDisposed       -- Error: llama context disposed / ctx member null
  | noMmCtx           -- Error: multimodal context is null
  | chunksInitFailed  -- Error: mtmd_input_chunks_init returned null
  | tokenizeFailed (code : Int)  -- Error: mtmd_tokenize nonzero status
  | evalFailed (code : Int)      -- Error: mtmd_helper_eval_chunks nonzero status
  | evalUnimplemented -- Error: chunk evaluation requires re-tokenization
  | noChunksProp      -- TypeError: tokenize result lacks a chunks property
deriving Repr, DecidableEq

/-- `MultiBitmap::GetData`: fails if the handle is null, otherwise
copies `nx * ny * 3` bytes starting at the native data pointer.
A bound wrapper always owns a live heap cell, so the inner `none`
branch is unreachable in reachable states; it reports the same
disposed error. -/
def MultiBitmap.getData (h : Heap) (b : MultiBitmap) :
    Except AddonError (List UInt8) :=
  match b.ptr with
  | none => .error .disposedBitmap
  | some a =>
    match h.mem a with
    | none => .error .disposedBitmap
    | some d => .ok ((List.range (d.nx * d.ny * 3)).map d.pix)

/-- `MultiBitmap::GetDimensions`: fails if the handle is null, otherwise
reports the decoder's `nx`/`ny`. -/
def MultiBitmap.getDimensions (h : Heap) (b : MultiBitmap) :
    Except AddonError Dimensions :=
  match b.ptr with
  | none => .error .disposedBitmap
  | some a =>
    match h.mem a with
    | none => .error .disposedBitmap
    | some d => .ok { width := d.nx, height := d.ny }

/-- `MultiBitmap::GetId`: fails if the handle is null, otherwise returns
the id string or null. -/
def MultiBitmap.getId (h : Heap) (b : MultiBitmap) :
    Except AddonError (Option String) :=
  match b.ptr with
  | none => .error .disposedBitmap
  | some a =>
    match h.mem a with
    | none => .error .disposedBitmap
    | some d => .ok d.id

/-- `MultiBitmap::SetId`: the disposed check comes first, then the
argument-type check (`arg = none` models a non-string argument), then
the id of the pointee is overwritten. -/
def MultiBitmap.setId (h : Heap) (b : MultiBitmap) (arg : Option String) :
    Except AddonError Heap :=
  match b.ptr with
  | none => .error .disposedBitmap
  | some a =>
    match arg with
    | none => .error .badArgs
    | some s =>
      match h.mem a with
      | none => .error .disposedBitmap
      | some d =>
        .ok { h with
              mem := fun x => if x = a then some { d with id := some s }
                              else h.mem x }

/-- `MultiBitmap::Dispose`: resets `bitmap_wrapper.ptr`, freeing the
native bitmap when one is held; it performs no check and never throws. -/
def MultiBitmap.dispose (h : Heap) (b : MultiBitmap) :
    Heap × MultiBitmap :=
  match b.ptr with
  | none => (h, b)
  | some a => (h.free a, { ptr := none })

/-- The `MultiBitmaps` NAPI wrapper: the addresses of the native bitmaps
owned by `bitmaps_collection_cpp_wrapper.entries`, in order. -/
structure MultiBitmaps where
  entries : List Nat

/-- `MultiBitmaps::AddBitmap`.  `arg = none` models a missing /
non-object / non-unwrappable argument.  A null wrapper pointer is the
"Invalid or uninitialized MultiBitmap object" error.  On success the
source's `nx`, `ny` and pixel data are passed to `mtmd_bitmap_init`
(which copies them into a fresh handle; `allocOk = false` models it
returning null), the id is copied with `mtmd_bitmap_set_id`, and the
new handle is appended to the collection.  The inner dangling-address
branch is unreachable for a live wrapper and mirrors the invalid-bitmap
error. -/
def MultiBitmaps.addBitmap (h : Heap) (col : MultiBitmaps)
    (arg : Option MultiBitmap) (allocOk : Bool) :
    Except AddonError Unit × Heap × MultiBitmaps :=
  match arg with
  | none => (.error .badArgs, h, col)
  | some wb =>
    match wb.ptr with
    | none => (.error .invalidBitmap, h, col)
    | some a =>
      match h.mem a with
      | none => (.error .invalidBitmap, h, col)
      | some d =>
        if !allocOk then (.error .copyFailed, h, col)
        else
          let copied : BitmapData :=
            { nx := d.nx, ny := d.ny, pix := d.pix, id := d.id }
          let r := h.alloc copied
          (.ok (), r.2, { entries := col.entries ++ [r.1] })

/-- `MultiBitmaps::GetBitmapCount`: the size of the entries vector; it
performs no check and never throws. -/
def MultiBitmaps.getBitmapCount (col : MultiBitmaps) : Nat :=
  col.entries.length

/-- `MultiBitmaps::Dispose`: `entries.clear()`, destroying each owned
`mtmd::bitmap` and thereby freeing each owned native handle. -/
def MultiBitmaps.dispose (h : Heap) (col : MultiBitmaps) :
    Heap × MultiBitmaps :=
  (col.entries.foldl Heap.free h, { entries := [] })

/-- The `mtmd_input_chunk_type` enum of the external library. -/
inductive ChunkType where
  | text
  | image
  | audio
deriving Repr, DecidableEq

/-- The integer the C++ stores in the chunk's `type` field
(`static_cast<int>(chunk_type)`, with the enum values of `mtmd.h`). -/
def ChunkType.toNat : ChunkType → Nat
  | .text => 0
  | .image => 1
  | .audio => 2

/-- Observable content of an `mtmd_image_tokens` handle, through its
accessors `n_tokens`, `nx`, `ny`, `id`, `n_pos`. -/
structure ImageInfo where
  tokenCount : Nat
  nx : Nat
  ny : Nat
  id : Option String
  nPos : Nat
deriving Repr, DecidableEq

/-- Observable content of one native `mtmd_input_chunk`: its type, the
text tokens (`mtmd_input_chunk_get_tokens_text`, meaningful for TEXT
chunks) and the possibly-null image-token handle
(`mtmd_input_chunk_get_tokens_image`, meaningful for IMAGE chunks). -/
structure NativeChunk where
  ctype : ChunkType
  textTokens : List Int
  imageTokens : Option ImageInfo
deriving Repr, DecidableEq

/-- One chunk object of the JS tokenize result: the numeric `type`
field always present, and the optional `tokens` / `imageInfo` fields
(`none` = property absent on the JS object). -/
structure JsChunk where
  type : Nat
  tokens : Option (List Int)
  imageInfo : Option ImageInfo
deriving Repr, DecidableEq

/-- The per-chunk body of the conversion loop of
`addonMultimodalTokenize` (lines 413-451): TEXT chunks get a `tokens`
array, IMAGE chunks get an `imageInfo` object when the image-token
handle is non-null, every other chunk carries only `type`. -/
def chunkToJs (c : NativeChunk) : JsChunk :=
  match c.ctype with
  | .text =>
    { type := ChunkType.toNat .text,
      tokens := some c.textTokens,
      imageInfo := none }
  | .image =>
    { type := ChunkType.toNat .image,
      tokens := none,
      imageInfo := c.imageTokens }
  | .audio =>
    { type := ChunkType.toNat .audio,
      tokens := none,
      imageInfo := none }

/-- The JS object returned by `addonMultimodalTokenize` on success. -/
structure TokenizeResult where
  chunks : List JsChunk
deriving Repr, DecidableEq

/-- The slice of `AddonContext` this binding reads and writes:
the `disposed` flag, whether the `ctx` member is non-null, whether the
`multimodal_ctx` member is non-null, the sequence-position counter
`n_cur`, and `context_params.n_batch`. -/
structure AddonContext where
  disposed : Bool
  hasCtx : Bool
  hasMmCtx : Bool
  n_cur : Int
  n_batch : Nat
deriving Repr, DecidableEq

/-- Oracle for the external library's behaviour during one entry-point
invocation: whether `mtmd_input_chunks_init` returns a handle, the
status and output chunks of the (single) `mtmd_tokenize` call, and the
status and `new_n_past` output of the (single)
`mtmd_helper_eval_chunks` call. -/
structure MtmdEnv where
  chunksInitOk : Bool
  tokStatus : Int
  tokChunks : List NativeChunk
  evalStatus : Int
  evalNewNPast : Int
deriving Repr, DecidableEq

/-- Trace entry for one call into the external library.
`chunksInit ok` records an `mtmd_input_chunks_init` call and whether it
returned a handle (a resource is acquired exactly when `ok = true`);
`tokenizeCall` records the prompt, the `add_special` / `parse_special`
flags and the bitmap count passed to `mtmd_tokenize`; `evalCall`
records `n_past`, `seq_id`, `n_batch` and `logits_last` passed to
`mtmd_helper_eval_chunks`; `chunksFree` records an
`mtmd_input_chunks_free` (explicit or via the `mtmd::input_chunks`
wrapper destructor). -/
inductive ExtCall where
  | chunksInit (ok : Bool)
  | tokenizeCall (text : String) (addSpecial parseSpecial : Bool) (nBitmaps : Nat)
  | evalCall (nPast : Int) (seqId : Nat) (nBatch : Nat) (logitsLast : Bool)
  | chunksFree
deriving Repr, DecidableEq

/-- Number of chunk-list resources acquired in a trace. -/
def acquiredCount (tr : List ExtCall) : Nat :=
  tr.countP fun c => match c with
    | .chunksInit ok => ok
    | _ => false

/-- Number of chunk-list resources released in a trace. -/
def freedCount (tr : List ExtCall) : Nat :=
  tr.countP fun c => match c with
    | .chunksFree => true
    | _ => false

/-- Whether a trace entry is an evaluator call. -/
def ExtCall.isEvalCall : ExtCall → Bool
  | .evalCall _ _ _ _ => true
  | _ => false

/-- The fixed argument policy of the binding, per call: tokenizer calls
carry `add_special = true` and `parse_special = true`; evaluator calls
carry the session's current `n_cur` as `n_past`, sequence id `0`, the
session's configured batch size, and `logits_last = true`. -/
def fixedPolicy (ctx : AddonContext) : ExtCall → Bool
  | .tokenizeCall _ a1 p1 _ => a1 && p1
  | .evalCall np sid nb ll =>
      np == ctx.n_cur && sid == 0 && nb == ctx.n_batch && ll
  | _ => true

/-- `addonMultimodalTokenize` (lines 303-467).  `ctxArg = none` models
a missing / non-object / non-unwrappable context argument,
`bitmapsArg = none` a non-unwrappable `MultiBitmaps` argument; a
present `bitmapsArg` is the address list of the collection's entries
(its `c_ptr()` snapshot).  Checks happen in source order: argument
shape, `disposed`, null `ctx`, null `multimodal_ctx`, bitmaps unwrap,
`mtmd_input_chunks_init`, `mtmd_tokenize`.  The chunk list is owned by
an `mtmd::input_chunks` RAII wrapper, so it is freed at scope exit on
both the failure and the success return. -/
def addonMultimodalTokenize (env : MtmdEnv) (ctxArg : Option AddonContext)
    (text : String) (bitmapsArg : Option (List Nat)) :
    Except AddonError TokenizeResult × List ExtCall :=
  match ctxArg with
  | none => (.error .badArgs, [])
  | some ctx =>
    if ctx.disposed then (.error .ctxDisposed, [])
    else if !ctx.hasCtx then (.error .ctxDisposed, [])
    else if !ctx.hasMmCtx then (.error .noMmCtx, [])
    else
      match bitmapsArg with
      | none => (.error .invalidBitmap, [])
      | some bitmaps =>
        if !env.chunksInitOk then
          (.error .chunksInitFailed, [ExtCall.chunksInit false])
        else
          let tr0 := [ExtCall.chunksInit true,
                      ExtCall.tokenizeCall text true true bitmaps.length]
          if env.tokStatus ≠ 0 then
            (.error (.tokenizeFailed env.tokStatus),
             tr0 ++ [ExtCall.chunksFree])
          else
            (.ok { chunks := env.tokChunks.map chunkToJs },
             tr0 ++ [ExtCall.chunksFree])

/-- `addonMultimodalEvaluateChunks` (lines 473-547).  `hasChunksProp`
models whether the tokenize-result argument has a `chunks` property.
After the precondition checks pass, the function initializes a raw
chunk list and then unconditionally throws the
"requires re-tokenization" error, returning without calling
`mtmd_input_chunks_free` on the list it just acquired and without
touching the evaluator or `n_cur`. -/
def addonMultimodalEvaluateChunks (env : MtmdEnv)
    (ctxArg : Option AddonContext) (hasChunksProp : Bool) :
    Except AddonError Unit × Option AddonContext × List ExtCall :=
  match ctxArg with
  | none => (.error .badArgs, none, [])
  | some ctx =>
    if !ctx.hasCtx then (.error .ctxDisposed, some ctx, [])
    else if !ctx.hasMmCtx then (.error .noMmCtx, some ctx, [])
    else if !hasChunksProp then (.error .noChunksProp, some ctx, [])
    else if !env.chunksInitOk then
      (.error .chunksInitFailed, some ctx, [ExtCall.chunksInit false])
    else
      (.error .evalUnimplemented, some ctx, [ExtCall.chunksInit true])

/-- Result of `addonMultimodalTokenizeAndEvaluate`: either a thrown
error, or the success object with its `tokensProcessed`,
`newSequenceLength` and `previousSequenceLength` fields (the `success`
field is always `true` on the ok branch). -/
inductive TAEResult where
  | err (e : AddonError)
  | ok (tokensProcessed newSequenceLength previousSequenceLength : Int)
deriving Repr, DecidableEq

/-- `addonMultimodalTokenizeAndEvaluate` (lines 553-679).  Checks in
source order: argument shape, null `ctx`, null `multimodal_ctx`,
bitmaps unwrap; then `mtmd_input_chunks_init`, `mtmd_tokenize` with
`add_special = parse_special = true`, and on tokenize success
`mtmd_helper_eval_chunks` with `n_past = n_cur`, `seq_id = 0`, the
context's `n_batch` and `logits_last = true`.  The chunk list is freed
explicitly on the tokenize-failure, eval-failure and success paths.
`n_cur` is overwritten with `new_n_past` only on the success path. -/
def addonMultimodalTokenizeAndEvaluate (env : MtmdEnv)
    (ctxArg : Option AddonContext) (text : String)
    (bitmapsArg : Option (List Nat)) :
    TAEResult × Option AddonContext × List ExtCall :=
  match ctxArg with
  | none => (.err .badArgs, none, [])
  | some ctx =>
    if !ctx.hasCtx then (.err .ctxDisposed, some ctx, [])
    else if !ctx.hasMmCtx then (.err .noMmCtx, some ctx, [])
    else
      match bitmapsArg with
      | none => (.err .invalidBitmap, some ctx, [])
      | some bitmaps =>
        if !env.chunksInitOk then
          (.err .chunksInitFailed, some ctx, [ExtCall.chunksInit false])
        else
          let tr0 := [ExtCall.chunksInit true,
                      ExtCall.tokenizeCall text true true bitmaps.length]
          if env.tokStatus ≠ 0 then
            (.err (.tokenizeFailed env.tokStatus), some ctx,
             tr0 ++ [ExtCall.chunksFree])
          else
            let tr1 := tr0 ++ [ExtCall.evalCall ctx.n_cur 0 ctx.n_batch true]
            if env.evalStatus ≠ 0 then
              (.err (.evalFailed env.evalStatus), some ctx,
               tr1 ++ [ExtCall.chunksFree])
            else
              (.ok (env.evalNewNPast - ctx.n_cur) env.evalNewNPast ctx.n_cur,
               some { ctx with n_cur := env.evalNewNPast },
               tr1 ++ [ExtCall.chunksFree])

/-- Concrete pixel function for test states. -/
def witPix : Nat → UInt8 := fun _ => 37

/-- Concrete native bitmap payload for test states. -/
def witData : BitmapData := { nx := 2, ny := 1, pix := witPix, id := none }

/-- Test heap with one live handle at address 0. -/
def witHeap : Heap :=
  { mem := fun a => if a = 0 then some witData else none, next := 1 }

/-- Test heap with live handles at addresses 0 and 1. -/
def witHeap2 : Heap :=
  { mem := fun a =>
      if a = 0 then some witData
      else if a = 1 then some witData else none,
    next := 2 }

/-- Test wrapper bound to address 0. -/
def witBitmap : MultiBitmap := { ptr := some 0 }

/-- Test collection owning the handle at address 1. -/
def witCol : MultiBitmaps := { entries := [1] }

/-- Test context: live, multimodal-capable, positioned at 7. -/
def witCtx : AddonContext :=
  { disposed := false, hasCtx := true, hasMmCtx := true,
    n_cur := 7, n_batch := 512 }

/-- Test oracle: every external call succeeds, evaluation advances the
position to 9. -/
def witEnvOk : MtmdEnv :=
  { chunksInitOk := true, tokStatus := 0, tokChunks := [],
    evalStatus := 0, evalNewNPast := 9 }

/-- Test oracle: the tokenizer fails with status 2. -/
def witEnvTokFail : MtmdEnv :=
  { chunksInitOk := true, tokStatus := 2, tokChunks := [],
    evalStatus := 0, evalNewNPast := 0 }

/-- Test oracle: the evaluator fails with status 1. -/
def witEnvEvalFail : MtmdEnv :=
  { chunksInitOk := true, tokStatus := 0, tokChunks := [],
    evalStatus := 1, evalNewNPast := 0 }

/-- Test native text chunk. -/
def witChunkText : NativeChunk :=
  { ctype := .text, textTokens := [11, 12], imageTokens := none }

/-- Test native image chunk with a non-null image-token handle. -/
def witChunkImg : NativeChunk :=
  { ctype := .image, textTokens := [],
    imageTokens := some { tokenCount := 4, nx := 2, ny := 2, id := none, nPos := 4 } }

/-- Test oracle: tokenization succeeds with one text and one image chunk. -/
def witEnvTok : MtmdEnv :=
  { chunksInitOk := true, tokStatus := 0,
    tokChunks := [witChunkText, witChunkImg],
    evalStatus := 0, evalNewNPast := 9 }

/-- Success characterization of the combined entry point: the result is
the success object exactly on the path where every precondition holds
and both external calls return status 0, and then its fields are
determined by `n_cur` and the evaluator's `new_n_past`. -/
theorem tae_ok_iff (env : MtmdEnv) (ctx : AddonContext) (text : String)
    (bm : List Nat) (tp nw pv : Int) :
    (addonMultimodalTokenizeAndEvaluate env (some ctx) text (some bm)).1
        = TAEResult.ok tp nw pv ↔
      (ctx.hasCtx = true ∧ ctx.hasMmCtx = true ∧ env.chunksInitOk = true ∧
       env.tokStatus = 0 ∧ env.evalStatus = 0 ∧
       env.evalNewNPast - ctx.n_cur = tp ∧ env.evalNewNPast = nw ∧
       ctx.n_cur = pv) := by
  by_cases h1 : ctx.hasCtx = true <;> by_cases h2 : ctx.hasMmCtx = true <;>
    by_cases h3 : env.chunksInitOk = true <;>
    by_cases h4 : env.tokStatus = 0 <;> by_cases h5 : env.evalStatus = 0 <;>
    simp [addonMultimodalTokenizeAndEvaluate, h1, h2, h3, h4, h5]

/-- C1: in `addonMultimodalTokenizeAndEvaluate`, whenever the tokenizer
or the evaluator returns a nonzero status, an error is raised and the
returned context is unchanged (so `n_cur` equals its pre-call value);
the counter is overwritten with the evaluator's `new_n_past` exactly on
the path where both external calls return status 0. -/
theorem tae_failure_preserves_n_cur (env : MtmdEnv) (ctx : AddonContext)
    (text : String) (bm : List Nat) (hc : ctx.hasCtx = true)
    (hm : ctx.hasMmCtx = true) (hi : env.chunksInitOk = true) :
    ((env.tokStatus ≠ 0 ∨ env.evalStatus ≠ 0) →
      (∃ e, (addonMultimodalTokenizeAndEvaluate env (some ctx) text (some bm)).1
          = TAEResult.err e) ∧
      (addonMultimodalTokenizeAndEvaluate env (some ctx) text (some bm)).2.1
        = some ctx) ∧
    (env.tokStatus = 0 → env.evalStatus = 0 →
      (addonMultimodalTokenizeAndEvaluate env (some ctx) text (some bm)).2.1
        = some { ctx with n_cur := env.evalNewNPast } ∧
      (addonMultimodalTokenizeAndEvaluate env (some ctx) text (some bm)).1
        = TAEResult.ok (env.evalNewNPast - ctx.n_cur) env.evalNewNPast
            ctx.n_cur) := by
  by_cases h4 : env.tokStatus = 0 <;> by_cases h5 : env.evalStatus = 0 <;>
    simp [addonMultimodalTokenizeAndEvaluate, hc, hm, hi, h4, h5]

/-- Witness for C1: on a concrete session positioned at 7 and a
tokenizer failing with status 2, the call leaves the context intact. -/
theorem tae_failure_preserves_n_cur_witness :
    witCtx.hasCtx = true ∧ witEnvTokFail.chunksInitOk = true ∧
    witEnvTokFail.tokStatus ≠ 0 ∧
    (addonMultimodalTokenizeAndEvaluate witEnvTokFail (some witCtx) ""
      (some [])).2.1 = some witCtx :=
  ⟨rfl, rfl, by decide,
   ((tae_failure_preserves_n_cur witEnvTokFail witCtx "" [] rfl rfl rfl).1
     (Or.inl (by decide))).2⟩

/-- C2: whenever the combined entry point returns the success object,
`newSequenceLength - previousSequenceLength = tokensProcessed`,
`previousSequenceLength` is exactly the `n_cur` value the binding read
immediately before the evaluator call (it is also the `n_past` recorded
in the evaluator call of the trace), and `tokensProcessed ≥ 0` holds
under the external evaluator's documented contract that a successful
evaluation never moves the position backwards. -/
theorem tae_success_summary (env : MtmdEnv) (ctx : AddonContext)
    (text : String) (bm : List Nat)
    (hmono : env.evalStatus = 0 → ctx.n_cur ≤ env.evalNewNPast) :
    ∀ tp nw pv,
      (addonMultimodalTokenizeAndEvaluate env (some ctx) text (some bm)).1
          = TAEResult.ok tp nw pv →
        nw - pv = tp ∧ 0 ≤ tp ∧ pv = ctx.n_cur ∧
        ExtCall.evalCall pv 0 ctx.n_batch true
          ∈ (addonMultimodalTokenizeAndEvaluate env (some ctx) text
              (some bm)).2.2 := by
  intro tp nw pv hok
  rw [tae_ok_iff] at hok
  obtain ⟨h1, h2, h3, h4, h5, htp, hnw, hpv⟩ := hok
  subst htp hnw hpv
  refine ⟨rfl, ?_, rfl, ?_⟩
  · have := hmono h5
    omega
  · simp [addonMultimodalTokenizeAndEvaluate, h1, h2, h3, h4, h5]

/-- Witness for C2: on a concrete session positioned at 7 whose
evaluator succeeds with `new_n_past = 9`, the summary is `(2, 9, 7)`
and `2 ≥ 0`. -/
theorem tae_success_summary_witness :
    (addonMultimodalTokenizeAndEvaluate witEnvOk (some witCtx) ""
      (some [])).1 = TAEResult.ok 2 9 7 ∧ (0 : Int) ≤ 2 :=
  ⟨by decide,
   ((tae_success_summary witEnvOk witCtx "" [] (fun _ => by decide)) 2 9 7
     (by decide)).2.1⟩

/-- C3: `MultiBitmaps::AddBitmap` on a live source bitmap succeeds and
appends a newly allocated handle (at the fresh address `h.next`, which
is distinct from the source's address, so the collection never aliases
the source handle) whose payload is a copy of the source's dimensions,
pixel data and id; after the source bitmap is disposed, the
collection's copy is still live, still readable through `getData`, and
still counted.  A disposed (null-pointer) source bitmap raises the
invalid-bitmap error and leaves the heap and the collection
unchanged. -/
theorem addBitmap_deep_copy (h : Heap) (col : MultiBitmaps)
    (b : MultiBitmap) (a : Nat) (d : BitmapData) (hp : b.ptr = some a)
    (hm : h.mem a = some d) (hlt : a < h.next) :
    (MultiBitmaps.addBitmap h col (some b) true).1 = .ok () ∧
    (MultiBitmaps.addBitmap h col (some b) true).2.2.entries
      = col.entries ++ [h.next] ∧
    h.next ≠ a ∧
    ((MultiBitmaps.addBitmap h col (some b) true).2.1).mem h.next
      = some d ∧
    (MultiBitmap.dispose
        (MultiBitmaps.addBitmap h col (some b) true).2.1 b).1.mem h.next
      = some d ∧
    MultiBitmap.getData
        (MultiBitmap.dispose
          (MultiBitmaps.addBitmap h col (some b) true).2.1 b).1
        { ptr := some h.next }
      = .ok ((List.range (d.nx * d.ny * 3)).map d.pix) ∧
    (MultiBitmaps.addBitmap h col (some b) true).2.2.getBitmapCount
      = col.getBitmapCount + 1 ∧
    (∀ b0 : MultiBitmap, b0.ptr = none →
      MultiBitmaps.addBitmap h col (some b0) true
        = (.error .invalidBitmap, h, col)) := by
  have hne : h.next ≠ a := by omega
  refine ⟨?_, ?_, hne, ?_, ?_, ?_, ?_, ?_⟩
  · simp [MultiBitmaps.addBitmap, hp, hm]
  · simp [MultiBitmaps.addBitmap, hp, hm, Heap.alloc]
  · simp [MultiBitmaps.addBitmap, hp, hm, Heap.alloc]
  · simp [MultiBitmaps.addBitmap, hp, hm, Heap.alloc, MultiBitmap.dispose,
      Heap.free, hne]
  · simp [MultiBitmaps.addBitmap, hp, hm, Heap.alloc, MultiBitmap.dispose,
      Heap.free, hne, MultiBitmap.getData]
  · simp [MultiBitmaps.addBitmap, hp, hm, Heap.alloc,
      MultiBitmaps.getBitmapCount]
  · intro b0 hb0
    simp [MultiBitmaps.addBitmap, hb0]

/-- Witness for C3: adding the live bitmap at address 0 of the test
heap to an empty collection, then disposing the source, leaves the
copied payload live at the fresh address 1. -/
theorem addBitmap_deep_copy_witness :
    witBitmap.ptr = some 0 ∧ witHeap.mem 0 = some witData ∧
    0 < witHeap.next ∧
    (MultiBitmaps.addBitmap witHeap ⟨[]⟩ (some witBitmap) true).1
      = .ok () ∧
    (MultiBitmap.dispose
        (MultiBitmaps.addBitmap witHeap ⟨[]⟩ (some witBitmap) true).2.1
        witBitmap).1.mem witHeap.next = some witData :=
  ⟨rfl, rfl, by decide,
   (addBitmap_deep_copy witHeap ⟨[]⟩ witBitmap 0 witData rfl rfl
     (by decide)).1,
   (addBitmap_deep_copy witHeap ⟨[]⟩ witBitmap 0 witData rfl rfl
     (by decide)).2.2.2.2.1⟩

/-- C4: `MultiBitmap::Dispose` never throws (its result type has no
error case, mirroring the check-free C++ body), a second dispose is a
no-op on the already-null handle, and after disposal all four
accessors fail with the same `disposedBitmap` error kind. -/
theorem dispose_idempotent_accessors (h : Heap) (b : MultiBitmap) :
    MultiBitmap.dispose (MultiBitmap.dispose h b).1
        (MultiBitmap.dispose h b).2
      = MultiBitmap.dispose h b ∧
    (MultiBitmap.dispose h b).2.ptr = none ∧
    MultiBitmap.getData (MultiBitmap.dispose h b).1
        (MultiBitmap.dispose h b).2 = .error .disposedBitmap ∧
    MultiBitmap.getDimensions (MultiBitmap.dispose h b).1
        (MultiBitmap.dispose h b).2 = .error .disposedBitmap ∧
    MultiBitmap.getId (MultiBitmap.dispose h b).1
        (MultiBitmap.dispose h b).2 = .error .disposedBitmap ∧
    ∀ s, MultiBitmap.setId (MultiBitmap.dispose h b).1
        (MultiBitmap.dispose h b).2 s = .error .disposedBitmap := by
  cases hb : b.ptr <;>
    simp [MultiBitmap.dispose, hb, MultiBitmap.getData,
      MultiBitmap.getDimensions, MultiBitmap.getId, MultiBitmap.setId]

/-- C5: once the context checks pass and the argument has a `chunks`
property, `addonMultimodalEvaluateChunks` always raises (the explicit
unimplemented error whenever the chunk-list allocation succeeds),
returns the context unchanged (so `n_cur` is untouched), and its trace
contains no evaluator call. -/
theorem evaluateChunks_unimplemented (env : MtmdEnv) (ctx : AddonContext)
    (hc : ctx.hasCtx = true) (hm : ctx.hasMmCtx = true) :
    (∃ e, (addonMultimodalEvaluateChunks env (some ctx) true).1
        = .error e) ∧
    (addonMultimodalEvaluateChunks env (some ctx) true).2.1 = some ctx ∧
    (∀ c ∈ (addonMultimodalEvaluateChunks env (some ctx) true).2.2,
      c.isEvalCall = false) ∧
    (env.chunksInitOk = true →
      (addonMultimodalEvaluateChunks env (some ctx) true).1
        = .error .evalUnimplemented) := by
  by_cases hi : env.chunksInitOk = true <;>
    simp [addonMultimodalEvaluateChunks, hc, hm, hi, ExtCall.isEvalCall]

/-- Witness for C5: the concrete live multimodal session hits the
unimplemented error. -/
theorem evaluateChunks_unimplemented_witness :
    witCtx.hasCtx = true ∧ witCtx.hasMmCtx = true ∧
    (addonMultimodalEvaluateChunks witEnvOk (some witCtx) true).1
      = Except.error AddonError.evalUnimplemented :=
  ⟨rfl, rfl,
   (evaluateChunks_unimplemented witEnvOk witCtx rfl rfl).2.2.2 rfl⟩

/-- C6: every external call recorded by the tokenize-only and the
combined entry points obeys the fixed argument policy: tokenizer calls
always carry `add_special = true` and `parse_special = true`, and
evaluator calls always carry the session's current `n_cur` as
`n_past`, sequence id 0, the session's configured `n_batch`, and
`logits_last = true` (logits only for the final chunk). -/
theorem fixed_flags_policy (env : MtmdEnv) (ctx : AddonContext)
    (text : String) (bm : List Nat) :
    ((addonMultimodalTokenize env (some ctx) text (some bm)).2).all
        (fixedPolicy ctx) = true ∧
    ((addonMultimodalTokenizeAndEvaluate env (some ctx) text
        (some bm)).2.2).all (fixedPolicy ctx) = true := by
  constructor
  · by_cases h0 : ctx.disposed = true <;> by_cases h1 : ctx.hasCtx = true <;>
      by_cases h2 : ctx.hasMmCtx = true <;>
      by_cases h3 : env.chunksInitOk = true <;>
      by_cases h4 : env.tokStatus = 0 <;>
      simp [addonMultimodalTokenize, h0, h1, h2, h3, h4, fixedPolicy]
  · by_cases h1 : ctx.hasCtx = true <;> by_cases h2 : ctx.hasMmCtx = true <;>
      by_cases h3 : env.chunksInitOk = true <;>
      by_cases h4 : env.tokStatus = 0 <;>
      by_cases h5 : env.evalStatus = 0 <;>
      simp [addonMultimodalTokenizeAndEvaluate, h1, h2, h3, h4, h5,
        fixedPolicy]

/-- C7: on a bound bitmap, `getData` raises no error and returns a
buffer of exactly `nx * ny * 3` bytes for the same `nx`/`ny` that
`getDimensions` reports; on a disposed bitmap it fails with the
disposed error. -/
theorem getData_size_spec (h : Heap) (b : MultiBitmap) (a : Nat)
    (d : BitmapData) (hp : b.ptr = some a) (hm : h.mem a = some d) :
    MultiBitmap.getData h b
      = .ok ((List.range (d.nx * d.ny * 3)).map d.pix) ∧
    ((List.range (d.nx * d.ny * 3)).map d.pix).length = d.nx * d.ny * 3 ∧
    MultiBitmap.getDimensions h b
      = .ok { width := d.nx, height := d.ny } ∧
    MultiBitmap.getData h { ptr := none } = .error .disposedBitmap := by
  refine ⟨?_, by simp, ?_, rfl⟩
  · simp [MultiBitmap.getData, hp, hm]
  · simp [MultiBitmap.getDimensions, hp, hm]

/-- Witness for C7: on the 2-by-1 test bitmap, `getData` returns the
6-byte buffer. -/
theorem getData_size_spec_witness :
    witBitmap.ptr = some 0 ∧ witHeap.mem 0 = some witData ∧
    MultiBitmap.getData witHeap witBitmap
      = .ok ((List.range (witData.nx * witData.ny * 3)).map witData.pix) ∧
    ((List.range (witData.nx * witData.ny * 3)).map witData.pix).length
      = witData.nx * witData.ny * 3 :=
  ⟨rfl, rfl,
   (getData_size_spec witHeap witBitmap 0 witData rfl rfl).1,
   (getData_size_spec witHeap witBitmap 0 witData rfl rfl).2.1⟩

/-- C8 counterexample: the claim that every entry point releases every
acquired chunk list before returning is false on the code.  In
`addonMultimodalEvaluateChunks`, with a live multimodal session, a
tokenize-result argument that has a `chunks` property and a successful
`mtmd_input_chunks_init`, the function throws the unimplemented error
after acquiring the chunk list and never calls
`mtmd_input_chunks_free` on it: one acquisition, zero releases. -/
theorem evaluateChunks_leaks_chunk_list :
    acquiredCount
        (addonMultimodalEvaluateChunks witEnvOk (some witCtx) true).2.2
      = 1 ∧
    freedCount
        (addonMultimodalEvaluateChunks witEnvOk (some witCtx) true).2.2
      = 0 := by
  decide

/-- C8 (amended): in the tokenize-only and combined
tokenize-and-evaluate entry points, every chunk-list resource acquired
through `mtmd_input_chunks_init` is released before the call returns,
on every outcome (precondition failure, tokenizer failure, evaluator
failure, success); the evaluate-only entry point instead leaks its
chunk list (see the counterexample). -/
theorem chunk_resources_balanced (env : MtmdEnv)
    (ctxArg : Option AddonContext) (text : String)
    (bitmapsArg : Option (List Nat)) :
    acquiredCount (addonMultimodalTokenize env ctxArg text bitmapsArg).2
      = freedCount (addonMultimodalTokenize env ctxArg text bitmapsArg).2 ∧
    acquiredCount
        (addonMultimodalTokenizeAndEvaluate env ctxArg text bitmapsArg).2.2
      = freedCount
        (addonMultimodalTokenizeAndEvaluate env ctxArg text
          bitmapsArg).2.2 := by
  constructor
  · cases ctxArg with
    | none => simp [addonMultimodalTokenize, acquiredCount, freedCount]
    | some ctx =>
      cases bitmapsArg with
      | none =>
        by_cases h0 : ctx.disposed = true <;>
          by_cases h1 : ctx.hasCtx = true <;>
          by_cases h2 : ctx.hasMmCtx = true <;>
          simp [addonMultimodalTokenize, h0, h1, h2, acquiredCount,
            freedCount]
      | some bm =>
        by_cases h0 : ctx.disposed = true <;>
          by_cases h1 : ctx.hasCtx = true <;>
          by_cases h2 : ctx.hasMmCtx = true <;>
          by_cases h3 : env.chunksInitOk = true <;>
          by_cases h4 : env.tokStatus = 0 <;>
          simp [addonMultimodalTokenize, h0, h1, h2, h3, h4,
            acquiredCount, freedCount]
  · cases ctxArg with
    | none =>
      simp [addonMultimodalTokenizeAndEvaluate, acquiredCount, freedCount]
    | some ctx =>
      cases bitmapsArg with
      | none =>
        by_cases h1 : ctx.hasCtx = true <;>
          by_cases h2 : ctx.hasMmCtx = true <;>
          simp [addonMultimodalTokenizeAndEvaluate, h1, h2,
            acquiredCount, freedCount]
      | some bm =>
        by_cases h1 : ctx.hasCtx = true <;>
          by_cases h2 : ctx.hasMmCtx = true <;>
          by_cases h3 : env.chunksInitOk = true <;>
          by_cases h4 : env.tokStatus = 0 <;>
          by_cases h5 : env.evalStatus = 0 <;>
          simp [addonMultimodalTokenizeAndEvaluate, h1, h2, h3, h4, h5,
            acquiredCount, freedCount]

/-- C9: on tokenize success the result is the native chunk list mapped
positionally through `chunkToJs`, and for every native chunk the JS
chunk has a `tokens` array exactly when the chunk type is TEXT, an
`imageInfo` object exactly when the type is IMAGE and the image-token
handle is non-null, and always carries the numeric `type` field of its
native type. -/
theorem tokenize_chunk_fields (env : MtmdEnv) (ctx : AddonContext)
    (text : String) (bm : List Nat) (h0 : ctx.disposed = false)
    (h1 : ctx.hasCtx = true) (h2 : ctx.hasMmCtx = true)
    (h3 : env.chunksInitOk = true) (h4 : env.tokStatus = 0) :
    (addonMultimodalTokenize env (some ctx) text (some bm)).1
      = .ok { chunks := env.tokChunks.map chunkToJs } ∧
    ∀ c : NativeChunk,
      ((chunkToJs c).tokens ≠ none ↔ c.ctype = ChunkType.text) ∧
      ((chunkToJs c).imageInfo ≠ none ↔
        (c.ctype = ChunkType.image ∧ c.imageTokens ≠ none)) ∧
      (chunkToJs c).type = c.ctype.toNat := by
  refine ⟨by simp [addonMultimodalTokenize, h0, h1, h2, h3, h4], ?_⟩
  intro c
  cases hc : c.ctype <;> cases hi : c.imageTokens <;>
    simp [chunkToJs, hc, hi, ChunkType.toNat]

/-- Witness for C9: tokenizing on the concrete session with a
one-text-chunk, one-image-chunk oracle yields the matching two-element
JS chunk list. -/
theorem tokenize_chunk_fields_witness :
    witEnvTok.tokStatus = 0 ∧ witCtx.disposed = false ∧
    (addonMultimodalTokenize witEnvTok (some witCtx) "" (some [])).1
      = .ok { chunks :=
          [{ type := 0, tokens := some [11, 12], imageInfo := none },
           { type := 1, tokens := none,
             imageInfo := some { tokenCount := 4, nx := 2, ny := 2,
                                 id := none, nPos := 4 } }] } :=
  ⟨rfl, rfl,
   (tokenize_chunk_fields witEnvTok witCtx "" [] rfl rfl rfl rfl rfl).1⟩

/-- C10: after `MultiBitmaps::Dispose` the count is 0 (and
`getBitmapCount`, like the C++ body, performs no check and cannot
throw: it is a total function into `Nat`), and the collection remains
usable: adding a bitmap that is still live in the post-disposal heap
succeeds and grows the collection from empty to count 1. -/
theorem bitmaps_dispose_reusable (h : Heap) (col : MultiBitmaps)
    (b : MultiBitmap) (a : Nat) (d : BitmapData) (hp : b.ptr = some a)
    (hm : (MultiBitmaps.dispose h col).1.mem a = some d) :
    (MultiBitmaps.dispose h col).2.getBitmapCount = 0 ∧
    (MultiBitmaps.addBitmap (MultiBitmaps.dispose h col).1
        (MultiBitmaps.dispose h col).2 (some b) true).1 = .ok () ∧
    (MultiBitmaps.addBitmap (MultiBitmaps.dispose h col).1
        (MultiBitmaps.dispose h col).2 (some b) true).2.2.getBitmapCount
      = 1 := by
  have hm2 : (List.foldl Heap.free h col.entries).mem a = some d := by
    simpa [MultiBitmaps.dispose] using hm
  refine ⟨rfl, ?_, ?_⟩
  · simp [MultiBitmaps.addBitmap, MultiBitmaps.dispose, hp, hm2]
  · simp [MultiBitmaps.addBitmap, MultiBitmaps.dispose, hp, hm2,
      MultiBitmaps.getBitmapCount, Heap.alloc]

/-- Witness for C10: disposing the test collection that owns address 1
frees it, count drops to 0, and re-adding the still-live bitmap at
address 0 brings the count back to 1. -/
theorem bitmaps_dispose_reusable_witness :
    witBitmap.ptr = some 0 ∧
    (MultiBitmaps.dispose witHeap2 witCol).1.mem 0 = some witData ∧
    (MultiBitmaps.dispose witHeap2 witCol).2.getBitmapCount = 0 ∧
    (MultiBitmaps.addBitmap (MultiBitmaps.dispose witHeap2 witCol).1
        (MultiBitmaps.dispose witHeap2 witCol).2 (some witBitmap)
        true).2.2.getBitmapCount = 1 :=
  ⟨rfl, rfl,
   (bitmaps_dispose_reusable witHeap2 witCol witBitmap 0 witData rfl
     rfl).1,
   (bitmaps_dispose_reusable witHeap2 witCol witBitmap 0 witData rfl
     rfl).2.2⟩
